import Mathlib

/-!
Verification of the gene-length extraction routine of
`presentation.py` (the only computational component of the repository).

The Python function under study is:

```
def extract_gene_lengths(file_path):
    gene_lengths = []
    with open(file_path, 'r') as file:
        for line in file:
            if not line.startswith(">"):
                fields = line.strip().split()
                start = int(fields[1])
                end = int(fields[2])
                gene_length = abs(end - start) + 1
                gene_lengths.append(gene_length)
    return gene_lengths
```

together with its caller

```
predicted_gene_lengths = extract_gene_lengths(file_path)
df = pd.DataFrame(predicted_gene_lengths, columns=["Predicted Gene Length"])
df = df[df["Predicted Gene Length"] <= 100000]
```

The embedding models a text file as its list of lines (each line without
its terminating newline, exactly what `for line in file` yields up to the
newline that `strip()` removes anyway), the file system as a partial map
from paths to such line lists, Python exceptions as an `Except` value
(`FileNotFoundError`, `IndexError` from `fields[i]`, `ValueError` from
`int(...)`), and Python's unbounded `int` as `Int`.
-/

namespace GeneLengths

/-- Characters treated as whitespace by Python's `str.strip()` and
`str.split()` (the ASCII whitespace set; the unicode extras Python also
accepts cannot occur in the annotation files this program reads). -/
def isPyWS (c : Char) : Bool :=
  c = ' ' || c = '\t' || c = '\n' || c = '\r' || c = '\x0b' || c = '\x0c'

/-- Characters of a string with leading and trailing whitespace removed,
as Python's `str.strip()` does. -/
def stripList (cs : List Char) : List Char :=
  ((cs.dropWhile isPyWS).reverse.dropWhile isPyWS).reverse

/-- Python `line.strip()`. -/
def pyStrip (s : String) : String :=
  String.mk (stripList s.toList)

/-- Chunks of a character list cut at every single whitespace character;
adjacent or outer separators leave empty chunks, which `splitList`
then discards.  Discarding them is exactly what makes this agree with
Python's no-argument `str.split()`, which splits on whitespace runs. -/
def splitChunks : List Char → List (List Char)
  | [] => [[]]
  | c :: cs =>
    if isPyWS c then [] :: splitChunks cs
    else
      match splitChunks cs with
      | [] => [[c]]
      | t :: ts => (c :: t) :: ts

/-- Whitespace-run splitting on character lists: the nonempty chunks. -/
def splitList (cs : List Char) : List (List Char) :=
  (splitChunks cs).filter (fun t => !t.isEmpty)

/-- Python `s.split()` with no separator argument. -/
def pySplit (s : String) : List String :=
  (splitList s.toList).map String.mk

/-- Value of the remainder of a Python integer-literal digit part:
digits, with single underscores allowed only between two digits
(`digitpart ::= digit (["_"] digit)*`).  `acc` is the value of the
digits already consumed. -/
def digitTail (acc : Nat) : List Char → Option Nat
  | [] => some acc
  | c :: cs =>
    if c.isDigit then digitTail (10 * acc + (c.toNat - 48)) cs
    else if c = '_' then
      match cs with
      | [] => none
      | d :: ds => if d.isDigit then digitTail (10 * acc + (d.toNat - 48)) ds else none
    else none

/-- Value of a full Python digit part: at least one digit, underscores
only between digits. -/
def digitPartVal : List Char → Option Nat
  | [] => none
  | c :: cs => if c.isDigit then digitTail (c.toNat - 48) cs else none

/-- Python `int(s)` on a decimal string: surrounding whitespace is
stripped, then an optional sign followed by a digit part.  Returns
`none` where Python raises `ValueError`.  (Python also accepts non-ASCII
decimal digits; those cannot occur here since `int` is applied to fields
of a whitespace-split ASCII line.) -/
def pyInt (s : String) : Option Int :=
  match stripList s.toList with
  | '+' :: rest => (digitPartVal rest).map (fun n => (n : Int))
  | '-' :: rest => (digitPartVal rest).map (fun n => -(n : Int))
  | cs => (digitPartVal cs).map (fun n => (n : Int))

/-- Python `s.startswith(t)`: prefix test on the characters. -/
def pyStartsWith (s t : String) : Bool :=
  t.toList.isPrefixOf s.toList

/-- The exceptions the Python function can raise: `FileNotFoundError`
from `open`, `IndexError` from `fields[1]` / `fields[2]`, `ValueError`
from `int(...)`. -/
inductive PyErr where
  | fileNotFound : PyErr
  | indexError : PyErr
  | valueError : PyErr
deriving DecidableEq

deriving instance DecidableEq for Except

/-- One iteration of the loop body on a line: `Except.ok none` means the
line was a header (skipped), `Except.ok (some v)` means the value `v`
was appended to `gene_lengths`, `Except.error e` means the iteration
raised.  The evaluation order matches the source: `fields[1]` is
indexed, then parsed by `int`, then `fields[2]` is indexed and parsed;
`stop` stands for the source's variable `end` (a Lean keyword). -/
def lineResult (line : String) : Except PyErr (Option Int) :=
  if pyStartsWith line ">" then Except.ok none
  else
    let fields := pySplit (pyStrip line)
    match fields[1]? with
    | none => Except.error PyErr.indexError
    | some f1 =>
      match pyInt f1 with
      | none => Except.error PyErr.valueError
      | some start =>
        match fields[2]? with
        | none => Except.error PyErr.indexError
        | some f2 =>
          match pyInt f2 with
          | none => Except.error PyErr.valueError
          | some stop => Except.ok (some (((stop - start).natAbs : Int) + 1))

/-- The `for line in file` loop with accumulator `gene_lengths = acc`. -/
def extractGo (acc : List Int) : List String → Except PyErr (List Int)
  | [] => Except.ok acc
  | line :: rest =>
    match lineResult line with
    | Except.error e => Except.error e
    | Except.ok none => extractGo acc rest
    | Except.ok (some v) => extractGo (acc ++ [v]) rest

/-- The extraction loop run on the lines of an already-opened file. -/
def extract_gene_lengths_lines (lines : List String) : Except PyErr (List Int) :=
  extractGo [] lines

/-- A file system: a partial map from paths to file contents given as
the list of lines. -/
abbrev FileSystem : Type := String → Option (List String)

/-- The full `extract_gene_lengths`: `open` raises `FileNotFoundError`
on a missing path, otherwise the loop runs over the file's lines. -/
def extract_gene_lengths (fs : FileSystem) (file_path : String) : Except PyErr (List Int) :=
  match fs file_path with
  | none => Except.error PyErr.fileNotFound
  | some lines => extract_gene_lengths_lines lines

/-- The caller's post-processing filter
`df = df[df["Predicted Gene Length"] <= 100000]`: keep the rows whose
value is at most 100000, in order, dropping the rest. -/
def filtered_gene_lengths (xs : List Int) : List Int :=
  xs.filter (fun x => decide (x ≤ 100000))

/-- Value contributed by a line when its iteration succeeds: `none` for
a skipped header, `some v` for an appended length.  Used to state what
a successful run returns. -/
def lineValue (line : String) : Option Int :=
  match lineResult line with
  | Except.ok v => v
  | Except.error _ => none

/-- Decidable success of one loop iteration. -/
def lineOk (line : String) : Bool :=
  match lineResult line with
  | Except.ok _ => true
  | Except.error _ => false

/-- Lines whose fields 1 and 2 exist and parse, and whose header status
agrees, drive the loop body identically. -/
def sameRelevant (l1 l2 : String) : Prop :=
  pyStartsWith l1 ">" = pyStartsWith l2 ">" ∧
  (pySplit (pyStrip l1))[1]? = (pySplit (pyStrip l2))[1]? ∧
  (pySplit (pyStrip l1))[2]? = (pySplit (pyStrip l2))[2]?

lemma extractGo_eq (acc : List Int) (ls : List String) :
    extractGo acc ls = (extract_gene_lengths_lines ls).map (fun out => acc ++ out) := by
  induction ls generalizing acc with
  | nil => simp [extractGo, extract_gene_lengths_lines, Except.map]
  | cons l rest ih =>
    show extractGo acc (l :: rest) = (extractGo [] (l :: rest)).map (fun out => acc ++ out)
    unfold extractGo
    cases h : lineResult l with
    | error e => simp [Except.map]
    | ok v =>
      cases v with
      | none => exact ih acc
      | some n =>
        show extractGo (acc ++ [n]) rest =
          Except.map (fun out => acc ++ out) (extractGo ([] ++ [n]) rest)
        rw [ih (acc ++ [n])]
        have h2 := ih [n]
        rw [show extractGo ([] ++ [n]) rest = extractGo [n] rest from rfl, h2]
        cases hr : extract_gene_lengths_lines rest <;> simp [Except.map]

lemma extract_lines_cons (l : String) (ls : List String) :
    extract_gene_lengths_lines (l :: ls) =
      match lineResult l with
      | Except.error e => Except.error e
      | Except.ok none => extract_gene_lengths_lines ls
      | Except.ok (some v) => (extract_gene_lengths_lines ls).map (fun out => v :: out) := by
  show extractGo [] (l :: ls) = _
  unfold extractGo
  cases h : lineResult l with
  | error e => rfl
  | ok v =>
    cases v with
    | none => rfl
    | some n => exact extractGo_eq [n] ls

lemma extract_lines_append_ok (ls1 ls2 : List String) (o1 : List Int)
    (h : extract_gene_lengths_lines ls1 = Except.ok o1) :
    extract_gene_lengths_lines (ls1 ++ ls2) =
      (extract_gene_lengths_lines ls2).map (fun o2 => o1 ++ o2) := by
  induction ls1 generalizing o1 with
  | nil =>
    have : o1 = [] := by simpa [extract_gene_lengths_lines, extractGo] using h.symm
    subst this
    cases hr : extract_gene_lengths_lines ls2 <;> simp [Except.map, hr]
  | cons l rest ih =>
    rw [extract_lines_cons] at h
    rw [List.cons_append, extract_lines_cons]
    cases hl : lineResult l with
    | error e => rw [hl] at h; cases h
    | ok v =>
      cases v with
      | none =>
        rw [hl] at h
        exact ih o1 h
      | some n =>
        rw [hl] at h
        cases hr : extract_gene_lengths_lines rest with
        | error e => rw [hr] at h; cases h
        | ok o =>
          rw [hr] at h
          have ho : o1 = n :: o := by
            have := h
            simp [Except.map] at this
            exact this.symm
          subst ho
          rw [ih o hr]
          cases hs : extract_gene_lengths_lines ls2 <;> simp [Except.map]

lemma extract_lines_error_of_line (ls : List String) (l : String) (hl : l ∈ ls)
    (e : PyErr) (he : lineResult l = Except.error e) :
    ∃ f, extract_gene_lengths_lines ls = Except.error f := by
  induction ls with
  | nil => cases hl
  | cons a rest ih =>
    rw [extract_lines_cons]
    cases ha : lineResult a with
    | error f => exact ⟨f, rfl⟩
    | ok v =>
      rcases List.mem_cons.mp hl with h1 | h2
      · subst h1; rw [ha] at he; cases he
      · rcases ih h2 with ⟨f, hf⟩
        cases v with
        | none => exact ⟨f, hf⟩
        | some n => rw [hf]; exact ⟨f, rfl⟩

lemma lineResult_header (l : String) (h : pyStartsWith l ">" = true) :
    lineResult l = Except.ok none := by
  simp [lineResult, h]

lemma lineResult_data (l f1 f2 : String) (a b : Int)
    (hh : pyStartsWith l ">" = false)
    (h1 : (pySplit (pyStrip l))[1]? = some f1)
    (h2 : (pySplit (pyStrip l))[2]? = some f2)
    (ha : pyInt f1 = some a) (hb : pyInt f2 = some b) :
    lineResult l = Except.ok (some (((b - a).natAbs : Int) + 1)) := by
  simp [lineResult, hh, h1, h2, ha, hb]

lemma header_of_lineResult_none (l : String) (h : lineResult l = Except.ok none) :
    pyStartsWith l ">" = true := by
  cases hs : pyStartsWith l ">" with
  | true => rfl
  | false =>
    exfalso
    cases hg1 : (pySplit (pyStrip l))[1]? with
    | none => simp [lineResult, hs, hg1] at h
    | some f1 =>
      cases hp1 : pyInt f1 with
      | none => simp [lineResult, hs, hg1, hp1] at h
      | some a =>
        cases hg2 : (pySplit (pyStrip l))[2]? with
        | none => simp [lineResult, hs, hg1, hp1, hg2] at h
        | some f2 =>
          cases hp2 : pyInt f2 with
          | none => simp [lineResult, hs, hg1, hp1, hg2, hp2] at h
          | some b => simp [lineResult, hs, hg1, hp1, hg2, hp2] at h

lemma one_le_of_lineResult_some (l : String) (v : Int)
    (h : lineResult l = Except.ok (some v)) : 1 ≤ v := by
  cases hs : pyStartsWith l ">" with
  | true => rw [lineResult_header l hs] at h; cases h
  | false =>
    cases hg1 : (pySplit (pyStrip l))[1]? with
    | none => simp [lineResult, hs, hg1] at h
    | some f1 =>
      cases hp1 : pyInt f1 with
      | none => simp [lineResult, hs, hg1, hp1] at h
      | some a =>
        cases hg2 : (pySplit (pyStrip l))[2]? with
        | none => simp [lineResult, hs, hg1, hp1, hg2] at h
        | some f2 =>
          cases hp2 : pyInt f2 with
          | none => simp [lineResult, hs, hg1, hp1, hg2, hp2] at h
          | some b =>
            rw [lineResult_data l f1 f2 a b hs hg1 hg2 hp1 hp2] at h
            have hv : ((b - a).natAbs : Int) + 1 = v := by
              injection h with h1
              injection h1
            have : (0 : Int) ≤ ((b - a).natAbs : Int) := Int.natCast_nonneg _
            omega

lemma extract_lines_wf (ls : List String) (h : ls.all lineOk = true) :
    extract_gene_lengths_lines ls = Except.ok (ls.filterMap lineValue) := by
  induction ls with
  | nil => rfl
  | cons l rest ih =>
    rw [List.all_cons, Bool.and_eq_true] at h
    obtain ⟨hl, hrest⟩ := h
    rw [extract_lines_cons, List.filterMap_cons]
    cases hr : lineResult l with
    | error e => simp [lineOk, hr] at hl
    | ok v =>
      have hv : lineValue l = v := by unfold lineValue; rw [hr]
      cases v with
      | none => rw [hv]; exact ih hrest
      | some n => rw [hv, ih hrest]; rfl

lemma filterMap_lineValue_length (ls : List String) (h : ls.all lineOk = true) :
    (ls.filterMap lineValue).length =
      (ls.filter (fun l => !(pyStartsWith l ">"))).length := by
  induction ls with
  | nil => rfl
  | cons l rest ih =>
    rw [List.all_cons, Bool.and_eq_true] at h
    obtain ⟨hl, hrest⟩ := h
    rw [List.filterMap_cons, List.filter_cons]
    cases hs : pyStartsWith l ">" with
    | true =>
      have hnone : lineValue l = none := by
        unfold lineValue
        rw [lineResult_header l hs]
      rw [hnone]
      simp [ih hrest]
    | false =>
      have hok : ∃ v, lineResult l = Except.ok v := by
        cases hr : lineResult l with
        | error e => simp [lineOk, hr] at hl
        | ok v => exact ⟨v, rfl⟩
      obtain ⟨v, hv⟩ := hok
      cases v with
      | none => exact absurd (header_of_lineResult_none l hv) (by simp [hs])
      | some n =>
        have hsome : lineValue l = some n := by unfold lineValue; rw [hv]
        rw [hsome]
        simp [hs, ih hrest]

lemma extractGo_pos (ls : List String) (acc out : List Int)
    (h : extractGo acc ls = Except.ok out) (hacc : ∀ v ∈ acc, 1 ≤ v) :
    ∀ v ∈ out, 1 ≤ v := by
  induction ls generalizing acc with
  | nil =>
    have : acc = out := by simpa [extractGo] using h
    subst this
    exact hacc
  | cons l rest ih =>
    unfold extractGo at h
    cases hr : lineResult l with
    | error e => rw [hr] at h; cases h
    | ok v =>
      rw [hr] at h
      cases v with
      | none => exact ih acc h hacc
      | some n =>
        refine ih (acc ++ [n]) h ?_
        intro v hv
        rcases List.mem_append.mp hv with h1 | h2
        · exact hacc v h1
        · have hvn : v = n := by simpa using h2
          subst hvn
          exact one_le_of_lineResult_some l v hr

lemma lineResult_congr (l1 l2 : String) (h : sameRelevant l1 l2) :
    lineResult l1 = lineResult l2 := by
  obtain ⟨h0, h1, h2⟩ := h
  simp only [lineResult]
  rw [h0, h1, h2]

lemma startsWith_gt_false_of_blank (l : String) (h : ∀ c ∈ l.toList, isPyWS c = true) :
    pyStartsWith l ">" = false := by
  unfold pyStartsWith
  have hgt : (">" : String).toList = ['>'] := by decide
  rw [hgt]
  cases hl : l.toList with
  | nil => rfl
  | cons c cs =>
    have hc : isPyWS c = true := h c (by rw [hl]; exact List.mem_cons_self c cs)
    have hne : ('>' : Char) ≠ c := by
      intro he
      rw [← he] at hc
      exact absurd hc (by decide)
    simp [List.isPrefixOf, beq_eq_false_iff_ne, hne]

lemma stripList_blank (cs : List Char) (h : ∀ c ∈ cs, isPyWS c = true) :
    stripList cs = [] := by
  unfold stripList
  have h1 : cs.dropWhile isPyWS = [] := by
    induction cs with
    | nil => rfl
    | cons c rest ih =>
      rw [List.dropWhile_cons]
      have hc : isPyWS c = true := h c (List.mem_cons_self c rest)
      rw [hc]
      simp only [if_true]
      exact ih (fun x hx => h x (List.mem_cons_of_mem c hx))
  rw [h1]
  rfl

lemma lineResult_blank (l : String) (h : ∀ c ∈ l.toList, isPyWS c = true) :
    lineResult l = Except.error PyErr.indexError := by
  have hsw := startsWith_gt_false_of_blank l h
  have hsplit : pySplit (pyStrip l) = [] := by
    unfold pySplit pyStrip
    rw [stripList_blank l.toList h]
    rfl
  simp [lineResult, hsw, hsplit]

example : extract_gene_lengths_lines [">scaffold1", "CDS 1 300 + ", "CDS 500 250 -"] =
    Except.ok [300, 251] := by decide

example : extract_gene_lengths_lines ["CDS 5"] = Except.error PyErr.indexError := by decide

example : extract_gene_lengths_lines ["CDS x 7"] = Except.error PyErr.valueError := by decide

example : pySplit "  a  bc d " = ["a", "bc", "d"] := by decide

example : pyInt " -12" = some (-12) ∧ pyInt "1_0" = some 10 ∧ pyInt "1_" = none ∧
    pyInt "+" = none ∧ pyInt "" = none := by decide

/-- Claim C1: every line that does not start with ">" and whose
whitespace-split fields at indices 1 and 2 parse as integers `a`
(start) and `b` (end) contributes exactly `abs(b - a) + 1` to the
output of `extract_gene_lengths`, in place between the lengths of the
surrounding lines.  The witness instantiates this at `start=100,
end=199` and at `start=199, end=100`, both yielding 100. -/
theorem claim_C1_appends_abs_span (pre post : List String) (l f1 f2 : String) (a b : Int)
    (o1 o2 : List Int)
    (hh : pyStartsWith l ">" = false)
    (h1 : (pySplit (pyStrip l))[1]? = some f1)
    (h2 : (pySplit (pyStrip l))[2]? = some f2)
    (ha : pyInt f1 = some a) (hb : pyInt f2 = some b)
    (hpre : extract_gene_lengths_lines pre = Except.ok o1)
    (hpost : extract_gene_lengths_lines post = Except.ok o2) :
    extract_gene_lengths_lines (pre ++ l :: post) =
      Except.ok (o1 ++ (((b - a).natAbs : Int) + 1) :: o2) := by
  rw [extract_lines_append_ok pre (l :: post) o1 hpre, extract_lines_cons,
    lineResult_data l f1 f2 a b hh h1 h2 ha hb, hpost]
  rfl

/-- Witness for C1: a header line followed by one data line, with
coordinates 100..199 and reversed 199..100; both give length 100. -/
theorem claim_C1_witness :
    extract_gene_lengths_lines [">scaffold1", "CDS 100 199 +"] = Except.ok [100] ∧
    extract_gene_lengths_lines [">scaffold1", "CDS 199 100 -"] = Except.ok [100] := by
  constructor
  · have h := claim_C1_appends_abs_span [">scaffold1"] [] "CDS 100 199 +" "100" "199"
      100 199 [] [] (by decide) (by decide) (by decide) (by decide) (by decide)
      (by decide) (by decide)
    rw [show ([">scaffold1"] ++ "CDS 100 199 +" :: ([] : List String)) =
      [">scaffold1", "CDS 100 199 +"] from rfl] at h
    rw [h]
    decide
  · have h := claim_C1_appends_abs_span [">scaffold1"] [] "CDS 199 100 -" "199" "100"
      199 100 [] [] (by decide) (by decide) (by decide) (by decide) (by decide)
      (by decide) (by decide)
    rw [show ([">scaffold1"] ++ "CDS 199 100 -" :: ([] : List String)) =
      [">scaffold1", "CDS 199 100 -"] from rfl] at h
    rw [h]
    decide

/-- Claim C2: on a well-formed file (every loop iteration succeeds),
`extract_gene_lengths` returns exactly the per-line values in file
order — the `filterMap` of the lines — and the number of returned
lengths equals the number of non-header (data) lines. -/
theorem claim_C2_one_length_per_data_line (lines : List String)
    (h : lines.all lineOk = true) :
    extract_gene_lengths_lines lines = Except.ok (lines.filterMap lineValue) ∧
    (lines.filterMap lineValue).length =
      (lines.filter (fun l => !(pyStartsWith l ">"))).length :=
  ⟨extract_lines_wf lines h, filterMap_lineValue_length lines h⟩

/-- Witness for C2: a file with one header and two data lines returns
two lengths, one per data line. -/
theorem claim_C2_witness :
    extract_gene_lengths_lines [">h", "CDS 1 3 +", "CDS 9 5 -"] =
      Except.ok ([">h", "CDS 1 3 +", "CDS 9 5 -"].filterMap lineValue) ∧
    ([">h", "CDS 1 3 +", "CDS 9 5 -"].filterMap lineValue).length =
      ([">h", "CDS 1 3 +", "CDS 9 5 -"].filter (fun l => !(pyStartsWith l ">"))).length :=
  claim_C2_one_length_per_data_line [">h", "CDS 1 3 +", "CDS 9 5 -"] (by decide)

/-- Claim C3: if some non-header line has fewer than 3 whitespace-split
fields, or its field at index 1 or 2 does not parse as an integer, the
whole call fails with an error: no `Except.ok` value (in particular no
partial list) is returned. -/
theorem claim_C3_malformed_line_errors (lines : List String) (l : String)
    (hl : l ∈ lines) (hh : pyStartsWith l ">" = false)
    (hbad : (pySplit (pyStrip l)).length < 3 ∨
      (∃ s, (pySplit (pyStrip l))[1]? = some s ∧ pyInt s = none) ∨
      (∃ s, (pySplit (pyStrip l))[2]? = some s ∧ pyInt s = none)) :
    ∃ e, extract_gene_lengths_lines lines = Except.error e := by
  have hline : ∃ e, lineResult l = Except.error e := by
    cases hg1 : (pySplit (pyStrip l))[1]? with
    | none => exact ⟨PyErr.indexError, by simp [lineResult, hh, hg1]⟩
    | some f1 =>
      cases hp1 : pyInt f1 with
      | none => exact ⟨PyErr.valueError, by simp [lineResult, hh, hg1, hp1]⟩
      | some a =>
        cases hg2 : (pySplit (pyStrip l))[2]? with
        | none => exact ⟨PyErr.indexError, by simp [lineResult, hh, hg1, hp1, hg2]⟩
        | some f2 =>
          cases hp2 : pyInt f2 with
          | none => exact ⟨PyErr.valueError, by simp [lineResult, hh, hg1, hp1, hg2, hp2]⟩
          | some b =>
            exfalso
            rcases hbad with hlen | ⟨s, hs, hnone⟩ | ⟨s, hs, hnone⟩
            · rw [List.getElem?_eq_none (by omega)] at hg2
              cases hg2
            · rw [hg1] at hs
              injection hs with hs
              rw [← hs] at hnone
              rw [hnone] at hp1
              cases hp1
            · rw [hg2] at hs
              injection hs with hs
              rw [← hs] at hnone
              rw [hnone] at hp2
              cases hp2
  obtain ⟨e, he⟩ := hline
  exact extract_lines_error_of_line lines l hl e he

/-- Witness for C3: a data line with only two fields makes the whole
call error. -/
theorem claim_C3_witness :
    ∃ e, extract_gene_lengths_lines [">h", "CDS 5"] = Except.error e :=
  claim_C3_malformed_line_errors [">h", "CDS 5"] "CDS 5" (by decide) (by decide)
    (Or.inl (by decide))

/-- Claim C4: on a path the file system does not map,
`extract_gene_lengths` fails with the file-not-found error and does not
return any `Except.ok` result. -/
theorem claim_C4_missing_file (fs : FileSystem) (p : String) (h : fs p = none) :
    extract_gene_lengths fs p = Except.error PyErr.fileNotFound ∧
    ∀ out, extract_gene_lengths fs p ≠ Except.ok out := by
  have hmain : extract_gene_lengths fs p = Except.error PyErr.fileNotFound := by
    unfold extract_gene_lengths
    rw [h]
  refine ⟨hmain, fun out hc => ?_⟩
  rw [hmain] at hc
  cases hc

/-- Witness for C4: the empty file system has no file at the path the
script reads. -/
theorem claim_C4_witness :
    extract_gene_lengths (fun _ => none) "run_tres.predict" =
      Except.error PyErr.fileNotFound :=
  (claim_C4_missing_file (fun _ => none) "run_tres.predict" rfl).1

/-- Claim C5: the caller's filter keeps each length at most 100000 with
its multiplicity, drops every length above 100000, and preserves the
relative order of what it keeps (the result is a sublist); 100000 is
retained and 100001 is excluded (see the witness). -/
theorem claim_C5_threshold_filter (xs : List Int) :
    List.Sublist (filtered_gene_lengths xs) xs ∧
    (∀ x : Int, x ≤ 100000 → (filtered_gene_lengths xs).count x = xs.count x) ∧
    (∀ x : Int, 100000 < x → (filtered_gene_lengths xs).count x = 0) ∧
    (∀ x : Int, x ∈ xs → x ≤ 100000 → x ∈ filtered_gene_lengths xs) ∧
    (∀ x : Int, x ∈ filtered_gene_lengths xs → x ≤ 100000 ∧ x ∈ xs) := by
  refine ⟨List.filter_sublist xs, ?_, ?_, ?_, ?_⟩
  · intro x hx
    unfold filtered_gene_lengths
    exact List.count_filter (by simpa using hx)
  · intro x hx
    unfold filtered_gene_lengths
    rw [List.count_eq_zero]
    intro hmem
    have := (List.mem_filter.mp hmem).2
    simp at this
    omega
  · intro x hmem hle
    unfold filtered_gene_lengths
    exact List.mem_filter.mpr ⟨hmem, by simpa using hle⟩
  · intro x hmem
    have := List.mem_filter.mp hmem
    exact ⟨by simpa using this.2, this.1⟩

/-- Witness for C5: on the list `[100000, 100001]` the boundary value
100000 is kept and 100001 is dropped. -/
theorem claim_C5_witness :
    List.Sublist (filtered_gene_lengths [100000, 100001]) [100000, 100001] ∧
    (100000 : Int) ∈ filtered_gene_lengths [100000, 100001] ∧
    (filtered_gene_lengths [100000, 100001]).count 100001 = 0 :=
  ⟨(claim_C5_threshold_filter [100000, 100001]).1,
   (claim_C5_threshold_filter [100000, 100001]).2.2.2.1 100000 (by decide) (by decide),
   (claim_C5_threshold_filter [100000, 100001]).2.2.1 100001 (by decide)⟩

/-- Claim C6: a line starting with ">" is skipped — dropping it from
the front of the file leaves the result unchanged — and a file whose
lines all start with ">" yields the empty list. -/
theorem claim_C6_headers_ignored :
    (∀ l ls, pyStartsWith l ">" = true →
      extract_gene_lengths_lines (l :: ls) = extract_gene_lengths_lines ls) ∧
    (∀ lines : List String, (∀ l ∈ lines, pyStartsWith l ">" = true) →
      extract_gene_lengths_lines lines = Except.ok []) := by
  have hskip : ∀ l ls, pyStartsWith l ">" = true →
      extract_gene_lengths_lines (l :: ls) = extract_gene_lengths_lines ls := by
    intro l ls hl
    rw [extract_lines_cons, lineResult_header l hl]
  refine ⟨hskip, ?_⟩
  intro lines h
  induction lines with
  | nil => rfl
  | cons l rest ih =>
    rw [hskip l rest (h l (List.mem_cons_self l rest))]
    exact ih (fun x hx => h x (List.mem_cons_of_mem l hx))

/-- Witness for C6: a header-only file returns the empty list. -/
theorem claim_C6_witness :
    extract_gene_lengths_lines [">scaffold1", ">scaffold2"] = Except.ok [] :=
  claim_C6_headers_ignored.2 [">scaffold1", ">scaffold2"] (by decide)

/-- Claim C7: whenever `extract_gene_lengths` succeeds, every returned
length is at least 1 — also for lines with end < start or end = start,
since the value is `abs(end - start) + 1`. -/
theorem claim_C7_all_positive (lines : List String) (out : List Int)
    (h : extract_gene_lengths_lines lines = Except.ok out) :
    ∀ v ∈ out, 1 ≤ v :=
  extractGo_pos lines [] out h (by simp)

/-- Witness for C7: the spec's end-to-end example, whose two lengths
300 and 251 are both at least 1 (one line has end < start). -/
theorem claim_C7_witness :
    extract_gene_lengths_lines [">scaffold1", "CDS 1 300 + ", "CDS 500 250 -"] =
      Except.ok [300, 251] ∧ (1 : Int) ≤ 300 ∧ (1 : Int) ≤ 251 :=
  ⟨by decide,
   claim_C7_all_positive [">scaffold1", "CDS 1 300 + ", "CDS 500 250 -"] [300, 251]
     (by decide) 300 (by decide),
   claim_C7_all_positive [">scaffold1", "CDS 1 300 + ", "CDS 500 250 -"] [300, 251]
     (by decide) 251 (by decide)⟩

/-- Claim C8: only the header marker and the fields at indices 1 and 2
of each line influence the result: two files whose lines agree
pairwise on those (so they may differ in field 0 and in fields from
index 3 on) produce equal results. -/
theorem claim_C8_field_independence (ls1 ls2 : List String)
    (h : List.Forall₂ sameRelevant ls1 ls2) :
    extract_gene_lengths_lines ls1 = extract_gene_lengths_lines ls2 := by
  induction h with
  | nil => rfl
  | cons hab hrest ih =>
    rw [extract_lines_cons, extract_lines_cons, lineResult_congr _ _ hab, ih]

/-- Witness for C8: two one-line files differing in field 0 and in the
trailing fields give the same output. -/
theorem claim_C8_witness :
    extract_gene_lengths_lines ["gene1 10 20 + 0.9"] =
      extract_gene_lengths_lines ["x 10 20"] := by
  apply claim_C8_field_independence
  refine List.Forall₂.cons ?_ List.Forall₂.nil
  refine ⟨?_, ?_, ?_⟩ <;> decide

/-- Claim C9: the embedded `extract_gene_lengths` is a pure function of
the file contents: runs over any two file systems and paths that hold
identical contents return identical results (side-effect freedom holds
by construction, the embedding being a function). -/
theorem claim_C9_deterministic (fs1 fs2 : FileSystem) (p1 p2 : String)
    (h : fs1 p1 = fs2 p2) :
    extract_gene_lengths fs1 p1 = extract_gene_lengths fs2 p2 := by
  unfold extract_gene_lengths
  rw [h]

/-- Witness for C9: the same contents under two different paths give
the same result. -/
theorem claim_C9_witness :
    extract_gene_lengths (fun _ => some [">s", "CDS 2 4 +"]) "a" =
      extract_gene_lengths (fun _ => some [">s", "CDS 2 4 +"]) "b" :=
  claim_C9_deterministic (fun _ => some [">s", "CDS 2 4 +"])
    (fun _ => some [">s", "CDS 2 4 +"]) "a" "b" rfl

/-- Claim C10: a line that is empty or all-whitespace is not skipped:
reaching it raises the index error (its split is empty, so `fields[1]`
is out of range), and any file containing such a line makes the call
fail rather than return a result. -/
theorem claim_C10_blank_line_index_error :
    (∀ pre post (l : String) o1, extract_gene_lengths_lines pre = Except.ok o1 →
      (∀ c ∈ l.toList, isPyWS c = true) →
      extract_gene_lengths_lines (pre ++ l :: post) = Except.error PyErr.indexError) ∧
    (∀ (lines : List String) (l : String), l ∈ lines →
      (∀ c ∈ l.toList, isPyWS c = true) →
      ∃ e, extract_gene_lengths_lines lines = Except.error e) := by
  constructor
  · intro pre post l o1 hpre hblank
    rw [extract_lines_append_ok pre (l :: post) o1 hpre, extract_lines_cons,
      lineResult_blank l hblank]
    rfl
  · intro lines l hl hblank
    exact extract_lines_error_of_line lines l hl PyErr.indexError
      (lineResult_blank l hblank)

/-- Witness for C10: a file with an empty line after a header fails
with the index error; a file with a spaces-only line fails. -/
theorem claim_C10_witness :
    extract_gene_lengths_lines [">h", "", "CDS 1 2 +"] = Except.error PyErr.indexError ∧
    (∃ e, extract_gene_lengths_lines ["   ", "CDS 1 2 +"] = Except.error e) := by
  constructor
  · exact claim_C10_blank_line_index_error.1 [">h"] ["CDS 1 2 +"] "" [] (by decide)
      (by decide)
  · exact claim_C10_blank_line_index_error.2 ["   ", "CDS 1 2 +"] "   " (by decide)
      (by decide)

end GeneLengths
